import Mathlib

/-!
Shallow embedding of the task-management backend (src/backend/server.js and
the relational schema in src/backend/db.sql), together with proofs about the
authentication, authorization, mutation and event-fanout layer.

Conventions of the embedding:
* SQL tables become Lean lists of row structures; parameterized queries become
  list operations translated statement by statement from the handler bodies.
* Timestamps are natural numbers (the code only ever writes `new Date()` and
  compares JWT expiries against "now").
* JavaScript `undefined` versus present values are modelled with `Option`;
  where a handler distinguishes `undefined` from `null` (the `!== undefined`
  checks in the task-update handler) the field is an `Option (Option String)`.
* Generated uuids are supplied as explicit arguments (the uuid library is an
  external collaborator producing opaque fresh strings).
-/

namespace TaskApp

/-- JavaScript string truthiness as used by the handlers' `if (!x)` guards:
an absent value and the empty string are falsy, every other string is truthy. -/
def truthy : Option String → Bool
  | none => false
  | some s => s != ""

/-- JavaScript `x || null` applied to an optional string value, as in the
`description || null` / `due_date || null` arguments of the insert statements. -/
def orNull : Option String → Option String
  | none => none
  | some s => if s == "" then none else some s

/-- An HTTP error response: status code plus the JSON `message` field, exactly
as produced by the `res.status(code).json({ message })` calls in server.js. -/
structure ApiError where
  code : Nat
  message : String
deriving DecidableEq

/-- Whether an `Except` outcome is a success. -/
def isOkE {ε α : Type} : Except ε α → Bool
  | .ok _ => true
  | .error _ => false

/- ===== Session tokens (jsonwebtoken collaborator model) ===== -/

/-- The claims the backend signs into a session token
(server.js lines 167 and 201: `{ user_id, email, name, user_role }`).
This is also the Identity Claim attached to authenticated requests/sockets. -/
structure TokenPayload where
  user_id : String
  email : String
  name : String
  user_role : String
deriving DecidableEq

/-- A session token: signed payload, expiry instant, and signature. -/
structure Token where
  payload : TokenPayload
  exp : Nat
  sig : String
deriving DecidableEq

/-- Model of the signing primitive of the jsonwebtoken library (an external
collaborator: the spec treats token-signing as a pluggable cryptographic
primitive with its standard contract). The signature is a deterministic
function of the server secret and the signed content. -/
def sigOf (secret : String) (p : TokenPayload) (exp : Nat) : String :=
  secret ++ "|" ++ p.user_id ++ "|" ++ p.email ++ "|" ++ p.name ++ "|" ++
    p.user_role ++ "|" ++ toString exp

/-- `jwt.sign(payload, secret, { expiresIn })`: produce a token whose
signature is valid for the given secret. -/
def signToken (secret : String) (p : TokenPayload) (exp : Nat) : Token :=
  { payload := p, exp := exp, sig := sigOf secret p exp }

/-- `jwt.verify(token, secret, cb)` contract: verification succeeds, yielding
the decoded payload, iff the signature verifies against the secret and the
expiry has not elapsed; otherwise the callback receives an error. -/
def jwtVerify (secret : String) (tok : Token) (now : Nat) : Option TokenPayload :=
  if tok.sig = sigOf secret tok.payload tok.exp ∧ now < tok.exp then some tok.payload else none

/-- The `authenticateToken` Express middleware (server.js lines 84-94):
missing bearer token yields 401 "Token missing"; a token failing
`jwt.verify` yields 403 "Invalid token"; otherwise the decoded payload
becomes `req.user`. -/
def authenticateToken (secret : String) (bearer : Option Token) (now : Nat) :
    Except ApiError TokenPayload :=
  match bearer with
  | none => .error { code := 401, message := "Token missing" }
  | some tok =>
    match jwtVerify secret tok now with
    | none => .error { code := 403, message := "Invalid token" }
    | some u => .ok u

/-- The Socket.IO handshake middleware (server.js lines 103-113): the token is
`handshake.auth.token || handshake.query.token`; a missing or unverifiable
token aborts the handshake with an `Error`, otherwise the payload becomes
`socket.user` and the connection is admitted. -/
def socketAuth (secret : String) (authToken queryToken : Option Token) (now : Nat) :
    Except String TokenPayload :=
  match (match authToken with | some t => some t | none => queryToken) with
  | none => .error "Authentication error: Token missing"
  | some tok =>
    match jwtVerify secret tok now with
    | none => .error "Authentication error: Invalid token"
    | some u => .ok u

/- ===== Relational state (db.sql) ===== -/

/-- A row of the `users` table. -/
structure UserRow where
  user_id : String
  name : String
  email : String
  password_hash : String
  profile_picture : Option String
  user_role : String
  created_at : Nat
  updated_at : Nat
deriving DecidableEq

/-- A row of the `tasks` table. -/
structure TaskRow where
  task_id : String
  title : String
  description : Option String
  due_date : Option String
  priority : String
  status : String
  creator_id : String
  project_id : Option String
  created_at : Nat
  updated_at : Nat
deriving DecidableEq

/-- A row of the `subtasks` table. -/
structure SubtaskRow where
  subtask_id : String
  task_id : String
  title : String
  is_completed : Bool
  created_at : Nat
  updated_at : Nat
deriving DecidableEq

/-- A row of the `task_comments` table; this is also exactly the
`commentPayload` shape built by the comment handler. -/
structure CommentRow where
  comment_id : String
  task_id : String
  user_id : String
  comment_text : String
  created_at : Nat
deriving DecidableEq

/-- A row of the `task_assignees` join table. -/
structure AssigneeRow where
  record_id : String
  task_id : String
  user_id : String
  assigned_at : Nat
deriving DecidableEq

/-- A row of the `task_labels` join table. -/
structure TaskLabelRow where
  record_id : String
  task_id : String
  label_id : String
deriving DecidableEq

/-- A row of the `notifications` table. -/
structure NotificationRow where
  notification_id : String
  user_id : String
  notification_type : String
  task_id : Option String
  message : String
  is_read : Bool
  created_at : Nat
deriving DecidableEq

/-- The mutable relational store: one list per table touched by the
handlers under verification. -/
structure DB where
  users : List UserRow
  tasks : List TaskRow
  subtasks : List SubtaskRow
  task_comments : List CommentRow
  task_assignees : List AssigneeRow
  task_labels : List TaskLabelRow
  notifications : List NotificationRow
deriving DecidableEq

/-- The empty store. -/
def dbEmpty : DB :=
  { users := [], tasks := [], subtasks := [], task_comments := [],
    task_assignees := [], task_labels := [], notifications := [] }

/- ===== Realtime event envelopes and broadcast ===== -/

/-- The event-type strings emitted via `io.emit`. -/
inductive EventType
  | task_created
  | task_updated
  | task_deleted
  | new_comment
deriving DecidableEq

/-- The payload of a `task_created` event; the task-creation handler also
returns this same object in its 201 response (server.js lines 382-390). -/
structure TaskCreatedPayload where
  task_id : String
  title : String
  status : String
  due_date : Option String
  creator_id : String
deriving DecidableEq

/-- The `updatedFields` object of a `task_updated` event: the raw `status`,
`priority` and `due_date` values of the request body (server.js line 507),
each possibly `undefined`; `due_date` may also be explicitly null. -/
structure UpdatedFields where
  status : Option String
  priority : Option String
  due_date : Option (Option String)
deriving DecidableEq

/-- The payload of a `task_updated` event (server.js lines 508-512). -/
structure TaskUpdatedPayload where
  task_id : String
  updated_fields : UpdatedFields
  updated_at : Nat
deriving DecidableEq

/-- The `data` field of an event envelope, per event type. -/
inductive EventData
  | taskCreated (p : TaskCreatedPayload)
  | taskUpdated (p : TaskUpdatedPayload)
  | taskDeleted (task_id : String)
  | newComment (p : CommentRow)
deriving DecidableEq

/-- The `{ event, data }` envelope passed to `io.emit`. -/
structure Envelope where
  event : EventType
  data : EventData
deriving DecidableEq

/-- Delivery model of `io.emit`: each emitted envelope is delivered to every
currently-registered realtime connection, with no recipient filtering. -/
def broadcast (conns : List String) (evs : List Envelope) : List (String × Envelope) :=
  evs.flatMap (fun e => conns.map (fun c => (c, e)))

/- ===== Handler outcome shape ===== -/

/-- The observable outcome of one REST mutation handler: the HTTP result,
the store after the handler ran, and the envelopes it emitted. -/
structure HandlerOut (α : Type) where
  result : Except ApiError α
  db : DB
  events : List Envelope

/-- An error response that leaves the store untouched and emits nothing. -/
def errOut (α : Type) (db : DB) (code : Nat) (message : String) : HandlerOut α :=
  { result := .error { code := code, message := message }, db := db, events := [] }

/- ===== Credential verifier (bcrypt collaborator model) ===== -/

/-- Model of `bcrypt.hash` (external collaborator with the standard one-way
hash contract): a deterministic injective encoding of the password. -/
def bcryptHash (password : String) : String := "bcrypt$" ++ password

/-- Model of `bcrypt.compare`: succeeds exactly on the hash of the password. -/
def bcryptCompare (password hash : String) : Bool := hash == bcryptHash password

/- ===== Auth handlers ===== -/

/-- Request body of POST /api/auth/register. -/
structure RegisterBody where
  name : Option String
  email : Option String
  password : Option String
  profile_picture : Option String
deriving DecidableEq

/-- The success value of the register/login handlers: the issued token and
the user subset echoed in the JSON response. -/
structure AuthPayload where
  token : Token
  user_id : String
  name : String
  email : String
  user_role : String
deriving DecidableEq

/-- POST /api/auth/register (server.js lines 142-177): reject when any of
name/email/password is falsy; reject with "Email already in use" when a user
row with that email exists; otherwise insert a user row with the hashed
password and role "user" and return a fresh one-day token.
This definition is the inserted user row. -/
def newUserRow (body : RegisterBody) (now : Nat) (user_id : String) : UserRow :=
  { user_id := user_id, name := body.name.getD "", email := body.email.getD "",
    password_hash := bcryptHash (body.password.getD ""),
    profile_picture := orNull body.profile_picture,
    user_role := "user", created_at := now, updated_at := now }

/-- POST /api/auth/register, continued: the full handler. -/
def register (secret : String) (db : DB) (body : RegisterBody) (now : Nat)
    (user_id : String) : HandlerOut AuthPayload :=
  if !(truthy body.name && truthy body.email && truthy body.password) then
    errOut _ db 400 "Name, email, and password are required"
  else if db.users.any (fun u => u.email == body.email.getD "") then
    errOut _ db 400 "Email already in use"
  else
    { result := .ok { token := signToken secret { user_id := user_id, email := body.email.getD "", name := body.name.getD "", user_role := "user" } (now + 86400), user_id := user_id, name := body.name.getD "", email := body.email.getD "", user_role := "user" },
      db := { db with users := db.users ++ [newUserRow body now user_id] },
      events := [] }

/-- POST /api/auth/login (server.js lines 186-220): reject when email or
password is falsy; look up the user row by email; unknown email and failed
hash comparison both yield the same 400 "Invalid credentials" response;
success returns a fresh one-day token with the stored user's claims. -/
def login (secret : String) (db : DB) (email password : Option String) (now : Nat) :
    HandlerOut AuthPayload :=
  if !(truthy email && truthy password) then
    errOut _ db 400 "Email and password are required"
  else
    match db.users.find? (fun u => u.email == email.getD "") with
    | none => errOut _ db 400 "Invalid credentials"
    | some u =>
      if !(bcryptCompare (password.getD "") u.password_hash) then
        errOut _ db 400 "Invalid credentials"
      else
        { result := .ok { token := signToken secret { user_id := u.user_id, email := u.email, name := u.name, user_role := u.user_role } (now + 86400), user_id := u.user_id, name := u.name, email := u.email, user_role := u.user_role },
          db := db, events := [] }

/- ===== Task handlers ===== -/

/-- One element of the `subtasks` array of a task-creation body. -/
structure SubtaskInput where
  title : Option String
deriving DecidableEq

/-- Request body of POST /api/tasks. `priority`/`status` are `none` when
absent, in which case the destructuring defaults "medium"/"pending" apply. -/
structure CreateTaskBody where
  title : Option String
  description : Option String
  due_date : Option String
  priority : Option String
  status : Option String
  project_id : Option String
  assignees : List String
  labels : List String
  subtasks : List SubtaskInput
deriving DecidableEq

/-- POST /api/tasks (server.js lines 324-395): validate title and subtask
titles; insert the task row and one child row per supplied subtask, assignee
and label; emit a single `task_created` envelope and return 201 with the same
payload. `fresh` supplies the uuids in generation order: index 0 is the
task id, then one id per subtask, per assignee record, per label record. -/
def createTask (db : DB) (user_id : String) (body : CreateTaskBody) (now : Nat)
    (fresh : Nat → String) : HandlerOut TaskCreatedPayload :=
  if !(truthy body.title) then
    errOut _ db 400 "Title is required"
  else if body.subtasks.length > 0 && !(body.subtasks.all (fun st => truthy st.title)) then
    errOut _ db 400 "Each subtask must have a title"
  else
    let task_id := fresh 0
    let title := body.title.getD ""
    let priority := body.priority.getD "medium"
    let status := body.status.getD "pending"
    let row : TaskRow :=
      { task_id := task_id, title := title,
        description := orNull body.description,
        due_date := orNull body.due_date,
        priority := priority, status := status,
        creator_id := user_id,
        project_id := orNull body.project_id,
        created_at := now, updated_at := now }
    let nSub := body.subtasks.length
    let nAsg := body.assignees.length
    let newSubtasks := body.subtasks.enum.map (fun p =>
      { subtask_id := fresh (1 + p.1), task_id := task_id, title := p.2.title.getD "",
        is_completed := false, created_at := now, updated_at := now : SubtaskRow })
    let newAssignees := body.assignees.enum.map (fun p =>
      { record_id := fresh (1 + nSub + p.1), task_id := task_id, user_id := p.2,
        assigned_at := now : AssigneeRow })
    let newLabels := body.labels.enum.map (fun p =>
      { record_id := fresh (1 + nSub + nAsg + p.1), task_id := task_id,
        label_id := p.2 : TaskLabelRow })
    let payload : TaskCreatedPayload :=
      { task_id := task_id, title := title, status := status,
        due_date := orNull body.due_date, creator_id := user_id }
    let db2 : DB :=
      { db with
        tasks := db.tasks ++ [row],
        subtasks := db.subtasks ++ newSubtasks,
        task_assignees := db.task_assignees ++ newAssignees,
        task_labels := db.task_labels ++ newLabels }
    { result := .ok payload, db := db2,
      events := [{ event := .task_created, data := .taskCreated payload }] }

/-- The WHERE clause of the GET /api/tasks query (server.js lines 408-420).
The handler appends " AND t.status = $2" to a clause of the form
`creator OR assignee`; since SQL gives AND a higher precedence than OR, the
status condition attaches only to the assignee disjunct. -/
def taskMatchesQuery (db : DB) (user_id : String) (status : Option String)
    (t : TaskRow) : Bool :=
  t.creator_id == user_id ||
    (db.task_assignees.any (fun a => a.task_id == t.task_id && a.user_id == user_id) &&
      (match status with | none => true | some s => t.status == s))

/-- GET /api/tasks (server.js lines 403-428): the rows the query returns. -/
def listTasks (db : DB) (user_id : String) (status : Option String) : List TaskRow :=
  db.tasks.filter (taskMatchesQuery db user_id status)

/-- Modelled from the spec: the task-list semantics the spec states — tasks
where the caller is creator or assignee, AND, when a status filter is
supplied, whose status equals the filter. Written for comparison with
`listTasks`, which embeds the source query. -/
def listTasksSpec (db : DB) (user_id : String) (status : Option String) : List TaskRow :=
  db.tasks.filter (fun t =>
    (t.creator_id == user_id ||
      db.task_assignees.any (fun a => a.task_id == t.task_id && a.user_id == user_id)) &&
    (match status with | none => true | some s => t.status == s))

/-- The task-detail object assembled by GET /api/tasks/:task_id. -/
structure TaskDetail where
  task : TaskRow
  subtasks : List SubtaskRow
  comments : List CommentRow
  assignees : List (String × String)
  labels : List String
deriving DecidableEq

/-- GET /api/tasks/:task_id (server.js lines 435-471): 404 when no task row
has the id, otherwise the task with its subtasks, comments, assignee
(user_id, name) pairs, and label ids. -/
def getTask (db : DB) (task_id : String) : Except ApiError TaskDetail :=
  match db.tasks.find? (fun t => t.task_id == task_id) with
  | none => .error { code := 404, message := "Task not found" }
  | some t =>
    .ok { task := t,
          subtasks := db.subtasks.filter (fun s => s.task_id == task_id),
          comments := db.task_comments.filter (fun c => c.task_id == task_id),
          assignees := (db.task_assignees.filter (fun a => a.task_id == task_id)).filterMap
            (fun a => (db.users.find? (fun u => u.user_id == a.user_id)).map
              (fun u => (u.user_id, u.name))),
          labels := (db.task_labels.filter (fun l => l.task_id == task_id)).map
            (fun l => l.label_id) }

/-- Request body of PUT /api/tasks/:task_id. The handler guards title,
priority and status with JavaScript truthiness (`if (title)`) but guards
description, due_date and project_id with `!== undefined`, so for the latter
three a present-but-null value is distinguished from an absent one. -/
structure UpdateTaskBody where
  title : Option String
  description : Option (Option String)
  due_date : Option (Option String)
  priority : Option String
  status : Option String
  project_id : Option (Option String)
deriving DecidableEq

/-- PUT /api/tasks/:task_id (server.js lines 480-519): 404 when the task does
not exist; 403 when the caller is not the creator; otherwise assemble a
sparse UPDATE from the supplied fields (truthy-gated for title/priority/
status, presence-gated for description/due_date/project_id), always refresh
`updated_at`, emit one `task_updated` envelope whose `updated_fields` is
built from the raw body `status`, `priority`, `due_date`, and return the
updated row. -/
def updateTask (db : DB) (caller_id : String) (task_id : String)
    (body : UpdateTaskBody) (now : Nat) : HandlerOut TaskRow :=
  match db.tasks.find? (fun t => t.task_id == task_id) with
  | none => errOut _ db 404 "Task not found"
  | some t =>
    if t.creator_id != caller_id then
      errOut _ db 403 "Unauthorized: Only the task creator can update the task"
    else
      let t2 : TaskRow :=
        { t with
          title := match body.title with
            | some s => if s == "" then t.title else s
            | none => t.title,
          description := match body.description with
            | some d => d
            | none => t.description,
          due_date := match body.due_date with
            | some d => d
            | none => t.due_date,
          priority := match body.priority with
            | some s => if s == "" then t.priority else s
            | none => t.priority,
          status := match body.status with
            | some s => if s == "" then t.status else s
            | none => t.status,
          project_id := match body.project_id with
            | some p => p
            | none => t.project_id,
          updated_at := now }
      let payload : TaskUpdatedPayload :=
        { task_id := task_id,
          updated_fields :=
            { status := body.status, priority := body.priority, due_date := body.due_date },
          updated_at := now }
      { result := .ok t2,
        db := { db with tasks := db.tasks.map (fun u => if u.task_id == task_id then t2 else u) },
        events := [{ event := .task_updated, data := .taskUpdated payload }] }

/-- One DELETE statement issued by the task-deletion handler. -/
inductive StorageOp
  | delSubtasks (task_id : String)
  | delComments (task_id : String)
  | delAssignees (task_id : String)
  | delLabels (task_id : String)
  | delTask (task_id : String)
deriving DecidableEq

/-- Effect of one DELETE statement on the store. -/
def applyStorageOp (db : DB) (op : StorageOp) : DB :=
  match op with
  | .delSubtasks id => { db with subtasks := db.subtasks.filter (fun s => s.task_id != id) }
  | .delComments id => { db with task_comments := db.task_comments.filter (fun c => c.task_id != id) }
  | .delAssignees id => { db with task_assignees := db.task_assignees.filter (fun a => a.task_id != id) }
  | .delLabels id => { db with task_labels := db.task_labels.filter (fun l => l.task_id != id) }
  | .delTask id => { db with tasks := db.tasks.filter (fun t => t.task_id != id) }

/-- The DELETE statements issued by DELETE /api/tasks/:task_id, in source
order (server.js lines 537-541). -/
def deleteTaskOps (task_id : String) : List StorageOp :=
  [.delSubtasks task_id, .delComments task_id, .delAssignees task_id,
   .delLabels task_id, .delTask task_id]

/-- DELETE /api/tasks/:task_id (server.js lines 527-548): 404 when the task
does not exist; 403 when the caller is not the creator; otherwise run the
five DELETE statements in order and emit one `task_deleted` envelope. -/
def deleteTask (db : DB) (caller_id : String) (task_id : String) : HandlerOut String :=
  match db.tasks.find? (fun t => t.task_id == task_id) with
  | none => errOut _ db 404 "Task not found"
  | some t =>
    if t.creator_id != caller_id then
      errOut _ db 403 "Unauthorized: Only the task creator can delete the task"
    else
      { result := .ok "Task deleted successfully",
        db := (deleteTaskOps task_id).foldl applyStorageOp db,
        events := [{ event := .task_deleted, data := .taskDeleted task_id }] }

/-- POST /api/tasks/:task_id/comments (server.js lines 556-578): reject a
falsy comment_text; otherwise insert the comment row and emit one
`new_comment` envelope carrying the same payload. (The handler never checks
that the task exists.) -/
def createComment (db : DB) (caller_id : String) (task_id : String)
    (comment_text : Option String) (now : Nat) (comment_id : String) :
    HandlerOut CommentRow :=
  if !(truthy comment_text) then
    errOut _ db 400 "Comment text is required"
  else
    let row : CommentRow :=
      { comment_id := comment_id, task_id := task_id, user_id := caller_id,
        comment_text := comment_text.getD "", created_at := now }
    { result := .ok row,
      db := { db with task_comments := db.task_comments ++ [row] },
      events := [{ event := .new_comment, data := .newComment row }] }

/-- PUT /api/notifications/:notification_id (server.js lines 607-624): 404
when the notification does not exist; 403 when the caller is not its
recipient; otherwise set `is_read` to the supplied value. No event is
emitted. -/
def updateNotification (db : DB) (caller_id : String) (notification_id : String)
    (is_read : Bool) : HandlerOut String :=
  match db.notifications.find? (fun n => n.notification_id == notification_id) with
  | none => errOut _ db 404 "Notification not found"
  | some n =>
    if n.user_id != caller_id then
      errOut _ db 403 "Unauthorized: Cannot update this notification"
    else
      let db2 : DB :=
        { db with
          notifications := db.notifications.map (fun m =>
            if m.notification_id == notification_id then { m with is_read := is_read } else m) }
      { result := .ok "Notification updated", db := db2, events := [] }

/- ===== Concrete fixtures for witnesses and counterexamples ===== -/

/-- A concrete task row owned by "alice" with status "pending". -/
def sampleTask : TaskRow :=
  { task_id := "t1", title := "Old", description := none, due_date := none,
    priority := "medium", status := "pending", creator_id := "alice",
    project_id := none, created_at := 0, updated_at := 0 }

/-- A concrete notification row addressed to "alice". -/
def sampleNotification : NotificationRow :=
  { notification_id := "n1", user_id := "alice", notification_type := "assignment",
    task_id := some "t1", message := "m", is_read := false, created_at := 0 }

/-- A concrete user row for "alice" with the hash of password "pw". -/
def sampleUser : UserRow :=
  { user_id := "alice", name := "Alice", email := "alice@example.com",
    password_hash := bcryptHash "pw", profile_picture := none,
    user_role := "user", created_at := 0, updated_at := 0 }

/-- A store holding the sample task, notification and user. -/
def sampleDB : DB :=
  { dbEmpty with
    users := [sampleUser],
    tasks := [sampleTask],
    notifications := [sampleNotification] }

/-- An update body supplying only an empty-string title. -/
def emptyTitleBody : UpdateTaskBody :=
  { title := some "", description := none, due_date := none,
    priority := none, status := none, project_id := none }

/-- An update body supplying nothing at all. -/
def emptyUpdateBody : UpdateTaskBody :=
  { title := none, description := none, due_date := none,
    priority := none, status := none, project_id := none }

/-- A creation body supplying the out-of-vocabulary priority "urgent". -/
def urgentBody : CreateTaskBody :=
  { title := some "T", description := none, due_date := none,
    priority := some "urgent", status := none, project_id := none,
    assignees := [], labels := [], subtasks := [] }

/-- A deterministic uuid supply for concrete runs. -/
def freshIds (n : Nat) : String := "id" ++ toString n

/-- An update body supplying only status "completed". -/
def statusOnlyBody : UpdateTaskBody :=
  { title := none, description := none, due_date := none,
    priority := none, status := some "completed", project_id := none }

/-- A registration body reusing the sample user's email. -/
def dupEmailBody : RegisterBody :=
  { name := some "Eve", email := some "alice@example.com",
    password := some "pw2", profile_picture := none }

/-- A registration body reusing the sample user's email but missing the
name field. -/
def noNameDupBody : RegisterBody :=
  { name := none, email := some "alice@example.com",
    password := some "pw2", profile_picture := none }

/-- The row stored for the sample task after a status-only update at time 5. -/
def updatedSample : TaskRow :=
  { sampleTask with status := "completed", updated_at := 5 }

/-- The sample store extended with a subtask, a comment, an assignee link and
a label link attached to the sample task. -/
def cascadeDB : DB :=
  { sampleDB with
    subtasks := [{ subtask_id := "s1", task_id := "t1", title := "sub",
                   is_completed := false, created_at := 0, updated_at := 0 }],
    task_comments := [{ comment_id := "c1", task_id := "t1", user_id := "bob",
                        comment_text := "hi", created_at := 0 }],
    task_assignees := [{ record_id := "a1", task_id := "t1", user_id := "bob",
                         assigned_at := 0 }],
    task_labels := [{ record_id := "l1", task_id := "t1", label_id := "label1" }] }

/- ===== Derived notions used by the properties ===== -/

/-- Uniqueness of the stored emails (the schema's UNIQUE constraint on
users.email, which the register handler re-checks before inserting). -/
def emailsUnique (db : DB) : Prop := (db.users.map UserRow.email).Nodup

/-- The store reached by a sequence of registration requests
(body, timestamp, generated user id). -/
def registerSeq (secret : String) (db : DB) :
    List (RegisterBody × Nat × String) → DB
  | [] => db
  | r :: rs => registerSeq secret (register secret db r.1 r.2.1 r.2.2).db rs

/-- The priority vocabulary of the data model. -/
def validPriority (s : String) : Prop := s = "low" ∨ s = "medium" ∨ s = "high"

/-- The status vocabulary of the data model. -/
def validStatus (s : String) : Prop :=
  s = "pending" ∨ s = "in_progress" ∨ s = "completed"

/-- One task mutation: a creation or an update request. -/
inductive TaskOp
  | create (uid : String) (body : CreateTaskBody) (now : Nat) (fresh : Nat → String)
  | update (uid : String) (tid : String) (body : UpdateTaskBody) (now : Nat)

/-- The store reached by running one task mutation. -/
def applyTaskOp (db : DB) : TaskOp → DB
  | .create uid body now fresh => (createTask db uid body now fresh).db
  | .update uid tid body now => (updateTask db uid tid body now).db

/-- The store reached by running a sequence of task mutations. -/
def runTaskOps (db : DB) : List TaskOp → DB
  | [] => db
  | op :: ops => runTaskOps (applyTaskOp db op) ops

/-- Every priority/status value a request supplies lies in the data-model
vocabulary; for updates, empty strings are exempt since the truthiness guard
discards them. -/
def opFieldsValid : TaskOp → Prop
  | .create _ body _ _ =>
      (∀ s, body.priority = some s → validPriority s) ∧
      (∀ s, body.status = some s → validStatus s)
  | .update _ _ body _ =>
      (∀ s, body.priority = some s → s ≠ "" → validPriority s) ∧
      (∀ s, body.status = some s → s ≠ "" → validStatus s)

/-- Every stored task's priority and status lie in the vocabulary. -/
def tasksValid (db : DB) : Prop :=
  ∀ t ∈ db.tasks, validPriority t.priority ∧ validStatus t.status

/-- A creation body with vocabulary-conformant priority and status. -/
def validBody : CreateTaskBody :=
  { title := some "T", description := none, due_date := none,
    priority := some "high", status := some "completed", project_id := none,
    assignees := [], labels := [], subtasks := [] }

/- ===== Theorems ===== -/

/-- C2: For a token presented on the HTTP path or on the realtime handshake
path, verification succeeds (yielding an identity claim) iff the token's
signature verifies against the server secret and its expiry has not elapsed;
in particular a token whose expiry has elapsed fails verification on both
paths even when its signature is valid. -/
theorem token_verification_iff (secret : String) (tok : Token) (now : Nat)
    (queryTok : Option Token) :
    (isOkE (authenticateToken secret (some tok) now) = true ↔
      (tok.sig = sigOf secret tok.payload tok.exp ∧ now < tok.exp)) ∧
    (isOkE (socketAuth secret (some tok) queryTok now) = true ↔
      (tok.sig = sigOf secret tok.payload tok.exp ∧ now < tok.exp)) ∧
    (tok.exp ≤ now →
      isOkE (authenticateToken secret (some tok) now) = false ∧
      isOkE (socketAuth secret (some tok) queryTok now) = false) := by
  by_cases hc : tok.sig = sigOf secret tok.payload tok.exp ∧ now < tok.exp
  · refine ⟨by simp [authenticateToken, jwtVerify, hc, isOkE],
      by simp [socketAuth, jwtVerify, hc, isOkE], ?_⟩
    intro h
    exact absurd hc.2 (by omega)
  · refine ⟨?_, ?_, ?_⟩ <;>
      simp [authenticateToken, socketAuth, jwtVerify, hc, isOkE, errOut]

/-- Witness for token_verification_iff: a concrete validly-signed token with
expiry 5 presented at time 10 is rejected on both paths. -/
theorem token_verification_iff_witness :
    isOkE (authenticateToken "s" (some (signToken "s" ⟨"u", "e", "n", "r"⟩ 5)) 10) = false ∧
    isOkE (socketAuth "s" (some (signToken "s" ⟨"u", "e", "n", "r"⟩ 5)) none 10) = false :=
  (token_verification_iff "s" (signToken "s" ⟨"u", "e", "n", "r"⟩ 5) 10 none).2.2 (by decide)

/-- C1: for an existing task and an existing notification, an authenticated
caller's task update, task delete and notification update succeed iff the
caller's user_id equals the resource's owner field (creator_id for the task,
user_id for the notification); otherwise the handler returns 403 Forbidden,
leaves the store unchanged, and emits no event. -/
theorem owner_gate_mutations (db : DB) (caller : TokenPayload) (tid nid : String)
    (body : UpdateTaskBody) (now : Nat) (b : Bool) (t : TaskRow) (n : NotificationRow)
    (ht : db.tasks.find? (fun r => r.task_id == tid) = some t)
    (hn : db.notifications.find? (fun r => r.notification_id == nid) = some n) :
    (isOkE (updateTask db caller.user_id tid body now).result = true ↔
      t.creator_id = caller.user_id) ∧
    (isOkE (deleteTask db caller.user_id tid).result = true ↔
      t.creator_id = caller.user_id) ∧
    (isOkE (updateNotification db caller.user_id nid b).result = true ↔
      n.user_id = caller.user_id) ∧
    (t.creator_id ≠ caller.user_id →
      (updateTask db caller.user_id tid body now).result =
        Except.error { code := 403, message := "Unauthorized: Only the task creator can update the task" } ∧
      (updateTask db caller.user_id tid body now).db = db ∧
      (updateTask db caller.user_id tid body now).events = [] ∧
      (deleteTask db caller.user_id tid).result =
        Except.error { code := 403, message := "Unauthorized: Only the task creator can delete the task" } ∧
      (deleteTask db caller.user_id tid).db = db ∧
      (deleteTask db caller.user_id tid).events = []) ∧
    (n.user_id ≠ caller.user_id →
      (updateNotification db caller.user_id nid b).result =
        Except.error { code := 403, message := "Unauthorized: Cannot update this notification" } ∧
      (updateNotification db caller.user_id nid b).db = db ∧
      (updateNotification db caller.user_id nid b).events = []) := by
  by_cases hct : t.creator_id = caller.user_id <;>
    by_cases hcn : n.user_id = caller.user_id <;>
    simp [updateTask, deleteTask, updateNotification, errOut, ht, hn, hct, hcn, isOkE]

/-- Witness for owner_gate_mutations on the sample store: the non-owner "bob"
is refused the task update, with the store left unchanged. -/
theorem owner_gate_mutations_witness :
    (updateTask sampleDB "bob" "t1" emptyUpdateBody 5).result =
      Except.error { code := 403, message := "Unauthorized: Only the task creator can update the task" } ∧
    (updateTask sampleDB "bob" "t1" emptyUpdateBody 5).db = sampleDB :=
  have h := owner_gate_mutations sampleDB ⟨"bob", "b@x", "Bob", "user"⟩ "t1" "n1"
    emptyUpdateBody 5 true sampleTask sampleNotification (by decide) (by decide)
  ⟨(h.2.2.2.1 (by decide)).1, (h.2.2.2.1 (by decide)).2.1⟩

/-- Removing every row whose key matches an id leaves nothing for a
subsequent query on that id to return. -/
theorem filter_eq_of_filter_ne {α : Type} (l : List α) (f : α → String) (id : String) :
    (l.filter (fun x => f x != id)).filter (fun x => f x == id) = [] := by
  induction l with
  | nil => rfl
  | cons a l ih =>
    by_cases h : f a = id <;> simp [List.filter_cons, h, ih]

/-- Looking up a row by key after removing every row with that key fails. -/
theorem find_eq_none_of_filter_ne {α : Type} (l : List α) (f : α → String) (id : String) :
    (l.filter (fun x => f x != id)).find? (fun x => f x == id) = none := by
  induction l with
  | nil => rfl
  | cons a l ih =>
    by_cases h : f a = id <;> simp [List.filter_cons, List.find?_cons, h, ih]

/-- A search with an unsatisfiable predicate finds nothing. -/
theorem find_false_none {α : Type} (l : List α) : l.find? (fun _ => false) = none := by
  induction l with
  | nil => rfl
  | cons a l ih => simp [List.find?_cons, ih]

/-- C4: deletion of an existing task by its creator issues exactly the five
DELETE statements in the order subtasks, comments, assignees, labels, task,
and the final store is their left-to-right application; afterwards no
child-table query for that task_id returns rows, and a subsequent lookup of
the task yields 404 NotFound. -/
theorem delete_task_cascade (db : DB) (uid tid : String) (t : TaskRow)
    (ht : db.tasks.find? (fun r => r.task_id == tid) = some t)
    (hown : t.creator_id = uid) :
    (deleteTask db uid tid).db = (deleteTaskOps tid).foldl applyStorageOp db ∧
    deleteTaskOps tid = [StorageOp.delSubtasks tid, StorageOp.delComments tid,
      StorageOp.delAssignees tid, StorageOp.delLabels tid, StorageOp.delTask tid] ∧
    (deleteTask db uid tid).db.subtasks.filter (fun s => s.task_id == tid) = [] ∧
    (deleteTask db uid tid).db.task_comments.filter (fun c => c.task_id == tid) = [] ∧
    (deleteTask db uid tid).db.task_assignees.filter (fun a => a.task_id == tid) = [] ∧
    (deleteTask db uid tid).db.task_labels.filter (fun l => l.task_id == tid) = [] ∧
    getTask (deleteTask db uid tid).db tid =
      .error { code := 404, message := "Task not found" } := by
  have hdel : (deleteTask db uid tid).db = (deleteTaskOps tid).foldl applyStorageOp db := by
    simp [deleteTask, ht, hown]
  refine ⟨hdel, rfl, ?_, ?_, ?_, ?_, ?_⟩ <;>
    rw [hdel] <;>
    simp [deleteTaskOps, applyStorageOp, getTask,
      filter_eq_of_filter_ne, find_eq_none_of_filter_ne, find_false_none]

/-- Witness for delete_task_cascade on a store holding the sample task with a
subtask, a comment, an assignee link and a label link. -/
theorem delete_task_cascade_witness :
    (deleteTask cascadeDB "alice" "t1").db.subtasks.filter (fun s => s.task_id == "t1") = [] ∧
    getTask (deleteTask cascadeDB "alice" "t1").db "t1" =
      .error { code := 404, message := "Task not found" } :=
  have h := delete_task_cascade cascadeDB "alice" "t1" sampleTask (by decide) (by decide)
  ⟨h.2.2.1, h.2.2.2.2.2.2⟩

/-- C6 counterexample: for the sample task (stored title "Old") the creator
supplies the field title = "" and nothing else; the update succeeds but the
stored title stays "Old" rather than being changed to the supplied value. -/
theorem sparse_update_counterexample :
    isOkE (updateTask sampleDB "alice" "t1" emptyTitleBody 5).result = true ∧
    emptyTitleBody.title = some "" ∧
    (updateTask sampleDB "alice" "t1" emptyTitleBody 5).db.tasks.map TaskRow.title = ["Old"] := by
  decide

/-- C6 (amended): for an update of an existing task by its creator,
description, due_date and project_id are changed to the supplied value
whenever supplied; title, priority and status are changed when supplied with
a non-empty value and left untouched when supplied empty; every unsupplied
field is left untouched; updated_at is always refreshed, including when no
field is supplied; and the stored table changes only at the updated row. -/
theorem sparse_update_semantics (db : DB) (uid tid : String) (body : UpdateTaskBody)
    (now : Nat) (t t2 : TaskRow)
    (ht : db.tasks.find? (fun r => r.task_id == tid) = some t)
    (hown : t.creator_id = uid)
    (hres : (updateTask db uid tid body now).result = .ok t2) :
    (updateTask db uid tid body now).db.tasks =
        db.tasks.map (fun u => if u.task_id == tid then t2 else u) ∧
      t2.updated_at = now ∧
      (body.title = none → t2.title = t.title) ∧
      (body.title = some "" → t2.title = t.title) ∧
      (∀ s, body.title = some s → s ≠ "" → t2.title = s) ∧
      (body.description = none → t2.description = t.description) ∧
      (∀ d, body.description = some d → t2.description = d) ∧
      (body.due_date = none → t2.due_date = t.due_date) ∧
      (∀ d, body.due_date = some d → t2.due_date = d) ∧
      (body.priority = none → t2.priority = t.priority) ∧
      (body.priority = some "" → t2.priority = t.priority) ∧
      (∀ s, body.priority = some s → s ≠ "" → t2.priority = s) ∧
      (body.status = none → t2.status = t.status) ∧
      (body.status = some "" → t2.status = t.status) ∧
      (∀ s, body.status = some s → s ≠ "" → t2.status = s) ∧
      (body.project_id = none → t2.project_id = t.project_id) ∧
      (∀ p, body.project_id = some p → t2.project_id = p) ∧
      t2.created_at = t.created_at ∧ t2.task_id = t.task_id ∧
      t2.creator_id = t.creator_id := by
  have hbne : (t.creator_id != uid) = false := by simp [hown]
  simp only [updateTask, ht, hbne, Bool.false_eq_true, if_false, Except.ok.injEq] at hres
  subst hres
  refine ⟨?_, ?_, ?_, ?_, ?_, ?_, ?_, ?_, ?_, ?_, ?_, ?_, ?_, ?_, ?_, ?_, ?_, ?_, ?_, ?_⟩
  · simp [updateTask, ht, hbne]
  · rfl
  · intro h; simp [h]
  · intro h; simp [h]
  · intro s hs hne; simp [hs, hne]
  · intro h; simp [h]
  · intro d hd; simp [hd]
  · intro h; simp [h]
  · intro d hd; simp [hd]
  · intro h; simp [h]
  · intro h; simp [h]
  · intro s hs hne; simp [hs, hne]
  · intro h; simp [h]
  · intro h; simp [h]
  · intro s hs hne; simp [hs, hne]
  · intro h; simp [h]
  · intro p hp; simp [hp]
  · rfl
  · rfl
  · rfl

/-- Witness for sparse_update_semantics: the creator updates the sample task
supplying only status "completed"; the stored status becomes "completed",
the title stays "Old" and updated_at becomes 5. -/
theorem sparse_update_semantics_witness :
    updatedSample.status = "completed" ∧ updatedSample.title = "Old" ∧
    updatedSample.updated_at = 5 :=
  have h := sparse_update_semantics sampleDB "alice" "t1" statusOnlyBody 5 sampleTask
    updatedSample (by decide) (by decide) (by rfl)
  ⟨h.2.2.2.2.2.2.2.2.2.2.2.2.2.2.1 "completed" rfl (by decide),
    h.2.2.1 rfl, h.2.1⟩

/-- C10: whenever a task update succeeds, the emitted `task_updated` envelope
carries an updated_fields object built from the raw body status, priority and
due_date values only; two successful updates whose bodies agree on those
three fields emit identical envelopes, whatever their title, description and
project_id. -/
theorem task_updated_event_fields (db : DB) (uid tid : String) (body : UpdateTaskBody)
    (now : Nat) (h : isOkE (updateTask db uid tid body now).result = true) :
    (updateTask db uid tid body now).events =
      [{ event := .task_updated, data := .taskUpdated { task_id := tid, updated_fields := { status := body.status, priority := body.priority, due_date := body.due_date }, updated_at := now } }] ∧
    (∀ body2 : UpdateTaskBody, body2.status = body.status → body2.priority = body.priority →
      body2.due_date = body.due_date →
      (updateTask db uid tid body2 now).events = (updateTask db uid tid body now).events) := by
  cases hf : db.tasks.find? (fun r => r.task_id == tid) with
  | none => simp [updateTask, hf, errOut, isOkE] at h
  | some t =>
    by_cases hb : (t.creator_id != uid) = true
    · simp [updateTask, hf, hb, errOut, isOkE] at h
    · constructor
      · simp [updateTask, hf, hb]
      · intro body2 h1 h2 h3
        simp [updateTask, hf, hb, h1, h2, h3]

/-- Witness for task_updated_event_fields: a successful status-only update of
the sample task emits the envelope with updated_fields =
{status := some "completed", priority := none, due_date := none}. -/
theorem task_updated_event_fields_witness :
    (updateTask sampleDB "alice" "t1" statusOnlyBody 5).events =
      [{ event := .task_updated, data := .taskUpdated { task_id := "t1", updated_fields := { status := some "completed", priority := none, due_date := none }, updated_at := 5 } }] :=
  (task_updated_event_fields sampleDB "alice" "t1" statusOnlyBody 5 (by decide)).1

/-- C3: each of the four mutation handlers (task create, task update, task
delete, comment create) emits exactly one envelope of its corresponding
event type iff it succeeds, and emits nothing when it fails with a
validation, authorization or not-found error; a broadcast delivers each
emitted envelope to exactly the currently-registered connections — all of
them, with no recipient filtering. -/
theorem mutation_event_broadcast (db : DB) (uid tid cid : String)
    (cbody : CreateTaskBody) (ubody : UpdateTaskBody) (ctext : Option String)
    (now : Nat) (fresh : Nat → String) (conns : List String) :
    (isOkE (createTask db uid cbody now fresh).result = true →
      (createTask db uid cbody now fresh).events.map Envelope.event = [EventType.task_created]) ∧
    (isOkE (createTask db uid cbody now fresh).result = false →
      (createTask db uid cbody now fresh).events = []) ∧
    (isOkE (updateTask db uid tid ubody now).result = true →
      (updateTask db uid tid ubody now).events.map Envelope.event = [EventType.task_updated]) ∧
    (isOkE (updateTask db uid tid ubody now).result = false →
      (updateTask db uid tid ubody now).events = []) ∧
    (isOkE (deleteTask db uid tid).result = true →
      (deleteTask db uid tid).events.map Envelope.event = [EventType.task_deleted]) ∧
    (isOkE (deleteTask db uid tid).result = false →
      (deleteTask db uid tid).events = []) ∧
    (isOkE (createComment db uid tid ctext now cid).result = true →
      (createComment db uid tid ctext now cid).events.map Envelope.event = [EventType.new_comment]) ∧
    (isOkE (createComment db uid tid ctext now cid).result = false →
      (createComment db uid tid ctext now cid).events = []) ∧
    (∀ (c : String) (e : Envelope) (evs : List Envelope),
      (c, e) ∈ broadcast conns evs ↔ c ∈ conns ∧ e ∈ evs) := by
  refine ⟨?_, ?_, ?_, ?_, ?_, ?_, ?_, ?_, ?_⟩
  · unfold createTask; split_ifs <;> simp [errOut, isOkE]
  · unfold createTask; split_ifs <;> simp [errOut, isOkE]
  · unfold updateTask
    split
    · simp [errOut, isOkE]
    · split_ifs <;> simp [errOut, isOkE]
  · unfold updateTask
    split
    · simp [errOut, isOkE]
    · split_ifs <;> simp [errOut, isOkE]
  · unfold deleteTask
    split
    · simp [errOut, isOkE]
    · split_ifs <;> simp [errOut, isOkE]
  · unfold deleteTask
    split
    · simp [errOut, isOkE]
    · split_ifs <;> simp [errOut, isOkE]
  · unfold createComment; split_ifs <;> simp [errOut, isOkE]
  · unfold createComment; split_ifs <;> simp [errOut, isOkE]
  · intro c e evs
    constructor
    · intro hmem
      obtain ⟨e2, he2, hmap⟩ := List.mem_flatMap.mp hmem
      obtain ⟨c2, hc2, heq⟩ := List.mem_map.mp hmap
      injection heq with h1 h2
      subst h1; subst h2
      exact ⟨hc2, he2⟩
    · rintro ⟨hc, he⟩
      exact List.mem_flatMap.mpr ⟨e, he, List.mem_map.mpr ⟨c, hc, rfl⟩⟩

/-- Witness for mutation_event_broadcast: a concrete successful creation
emits one `task_created` envelope, and a concrete envelope reaches both
registered connections. -/
theorem mutation_event_broadcast_witness :
    (createTask dbEmpty "alice" validBody 0 freshIds).events.map Envelope.event =
      [EventType.task_created] ∧
    ("conn1", { event := EventType.task_deleted, data := EventData.taskDeleted "t1" : Envelope }) ∈
      broadcast ["conn1", "conn2"] [{ event := EventType.task_deleted, data := EventData.taskDeleted "t1" }] :=
  have h := mutation_event_broadcast dbEmpty "alice" "t1" "c1" validBody
    emptyUpdateBody (some "hi") 0 freshIds ["conn1", "conn2"]
  ⟨h.1 (by decide),
    (h.2.2.2.2.2.2.2.2 "conn1"
      { event := EventType.task_deleted, data := EventData.taskDeleted "t1" }
      [{ event := EventType.task_deleted, data := EventData.taskDeleted "t1" }]).mpr
      (by decide)⟩

/-- C5: the status filter is not applied to creator-owned tasks. In the
sample store "alice" created the only task with status "pending"; listing
with the filter status = "completed" still returns that task, while the
spec's semantics (creator-or-assignee AND status match) returns nothing.
The handler's SQL appends the AND clause after the OR, and AND binds
tighter, so the filter constrains only the assignee disjunct. -/
theorem list_tasks_status_filter_divergence :
    listTasks sampleDB "alice" (some "completed") = [sampleTask] ∧
    sampleTask.status = "pending" ∧
    listTasksSpec sampleDB "alice" (some "completed") = [] := by decide

/-- Registration preserves uniqueness of stored emails: a duplicate is
rejected before insertion, and an inserted email was checked absent. -/
theorem register_keeps_unique (secret : String) (db : DB) (body : RegisterBody)
    (now : Nat) (uid : String) (h : emailsUnique db) :
    emailsUnique (register secret db body now uid).db := by
  unfold register
  split_ifs with h1 h2
  · exact h
  · exact h
  · have hmem : body.email.getD "" ∉ db.users.map UserRow.email := by
      intro hm
      obtain ⟨u, hu, he⟩ := List.mem_map.mp hm
      exact h2 (List.any_eq_true.mpr ⟨u, hu, by simp [he]⟩)
    unfold emailsUnique at h ⊢
    simp only [List.map_append]
    refine List.Nodup.append h (List.nodup_singleton _) ?_
    simp only [newUserRow, List.map_cons, List.map_nil]
    intro a ha hb
    rw [List.mem_singleton.mp hb] at ha
    exact hmem ha

/-- Sequences of registrations preserve uniqueness of stored emails. -/
theorem registerSeq_keeps_unique (secret : String)
    (reqs : List (RegisterBody × Nat × String)) (db : DB) (h : emailsUnique db) :
    emailsUnique (registerSeq secret db reqs) := by
  induction reqs generalizing db with
  | nil => exact h
  | cons r rs ih =>
    exact ih _ (register_keeps_unique secret db r.1 r.2.1 r.2.2 h)

/-- C7 counterexample: a registration request whose email equals the stored
sample user's email but whose name is missing fails with the required-fields
outcome, not the duplicate-email outcome. -/
theorem register_duplicate_counterexample :
    noNameDupBody.email = some sampleUser.email ∧ sampleUser ∈ sampleDB.users ∧
    (register "s" sampleDB noNameDupBody 9 "u9").result =
      Except.error { code := 400, message := "Name, email, and password are required" } ∧
    (register "s" sampleDB noNameDupBody 9 "u9").result ≠
      Except.error { code := 400, message := "Email already in use" } := by
  refine ⟨rfl, by decide, rfl, ?_⟩
  intro h
  rw [show (register "s" sampleDB noNameDupBody 9 "u9").result = Except.error { code := 400, message := "Name, email, and password are required" } from rfl] at h
  have h2 := Except.error.inj h
  exact absurd (congrArg ApiError.message h2) (by decide)

/-- C7 (amended): a well-formed registration whose email equals a stored user's email
fails with the duplicate-email outcome and leaves the store unchanged; and
starting from unique stored emails, any sequence of registrations keeps the
stored emails unique. -/
theorem register_email_uniqueness (secret : String) (db : DB) (body : RegisterBody)
    (now : Nat) (uid : String) (reqs : List (RegisterBody × Nat × String))
    (u : UserRow) (hu : u ∈ db.users) (he : body.email = some u.email)
    (hname : truthy body.name = true) (hpass : truthy body.password = true)
    (hemail : truthy body.email = true) :
    (register secret db body now uid).result =
      Except.error { code := 400, message := "Email already in use" } ∧
    (register secret db body now uid).db = db ∧
    (emailsUnique db → emailsUnique (registerSeq secret db reqs)) := by
  have hany : db.users.any (fun v => v.email == body.email.getD "") = true :=
    List.any_eq_true.mpr ⟨u, hu, by simp [he]⟩
  refine ⟨?_, ?_, fun h => registerSeq_keeps_unique secret reqs db h⟩ <;>
    simp [register, hname, hpass, hemail, hany, errOut]

/-- Witness for register_email_uniqueness: registering "alice@example.com" a
second time on the sample store is rejected with "Email already in use" and
the store stays as it was. -/
theorem register_email_uniqueness_witness :
    (register "s" sampleDB dupEmailBody 9 "u9").result =
      Except.error { code := 400, message := "Email already in use" } ∧
    (register "s" sampleDB dupEmailBody 9 "u9").db = sampleDB :=
  have h := register_email_uniqueness "s" sampleDB dupEmailBody 9 "u9" []
    sampleUser (by decide) (by decide) (by decide) (by decide) (by decide)
  ⟨h.1, h.2.1⟩

/-- In a list of user rows with pairwise-distinct emails, a member is
determined by its email. -/
theorem unique_email_mem {l : List UserRow} (hnd : (l.map UserRow.email).Nodup)
    {u v : UserRow} (hu : u ∈ l) (hv : v ∈ l) (he : u.email = v.email) : u = v := by
  induction l with
  | nil => cases hu
  | cons a l ih =>
    simp only [List.map_cons, List.nodup_cons] at hnd
    rcases List.mem_cons.mp hu with rfl | hu2
    · rcases List.mem_cons.mp hv with rfl | hv2
      · rfl
      · exact absurd (List.mem_map.mpr ⟨v, hv2, he.symm⟩) hnd.1
    · rcases List.mem_cons.mp hv with rfl | hv2
      · exact absurd (List.mem_map.mpr ⟨u, hu2, he⟩) hnd.1
      · exact ih hnd.2 hu2 hv2

/-- C8: for a login request with both fields present (non-empty), the
unknown-email failure and the wrong-password failure produce the identical
error outcome, so the response does not reveal whether the account exists;
login succeeds iff a user with that email exists whose stored hash matches
the password; and the store is unchanged. -/
theorem login_credential_semantics (secret : String) (db : DB) (e p : String)
    (now : Nat) (hnd : emailsUnique db) (he : e ≠ "") (hp : p ≠ "") :
    (isOkE (login secret db (some e) (some p) now).result = true ↔
      ∃ u, u ∈ db.users ∧ u.email = e ∧ bcryptCompare p u.password_hash = true) ∧
    ((∀ u ∈ db.users, u.email ≠ e) →
      (login secret db (some e) (some p) now).result =
        Except.error { code := 400, message := "Invalid credentials" }) ∧
    (∀ u, u ∈ db.users → u.email = e → bcryptCompare p u.password_hash = false →
      (login secret db (some e) (some p) now).result =
        Except.error { code := 400, message := "Invalid credentials" }) ∧
    (login secret db (some e) (some p) now).db = db := by
  have htr : (!(truthy (some e) && truthy (some p))) = false := by
    simp [truthy, he, hp]
  cases hf : db.users.find? (fun u => u.email == e) with
  | none =>
    have hnone : ∀ u ∈ db.users, u.email ≠ e := by
      intro u hu heq
      have h2 := List.find?_eq_none.mp hf u hu
      simp [heq] at h2
    refine ⟨?_, ?_, ?_, ?_⟩
    · simp only [login, htr, Bool.false_eq_true, if_false, Option.getD_some, hf, errOut, isOkE]
      simp only [false_iff]
      rintro ⟨u, hu, heq, _⟩
      exact hnone u hu heq
    · intro _; simp [login, htr, hf, errOut]
    · intro u hu heq _; exact absurd heq (hnone u hu)
    · simp [login, htr, hf, errOut]
  | some u0 =>
    have hmem := List.mem_of_find?_eq_some hf
    have hemail : u0.email = e := by
      have := List.find?_some hf
      simpa using this
    by_cases hcmp : bcryptCompare p u0.password_hash = true
    · refine ⟨?_, ?_, ?_, ?_⟩
      · simp only [login, htr, Bool.false_eq_true, if_false, Option.getD_some, hf,
          hcmp, Bool.not_true, isOkE]
        simp only [true_iff]
        exact ⟨u0, hmem, hemail, hcmp⟩
      · intro hall; exact absurd hemail (hall u0 hmem)
      · intro u hu heq hc
        have huu : u = u0 := unique_email_mem hnd hu hmem (heq.trans hemail.symm)
        rw [huu, hcmp] at hc
        cases hc
      · simp [login, htr, hf, hcmp]
    · have hcmp2 : bcryptCompare p u0.password_hash = false := by
        cases hb : bcryptCompare p u0.password_hash
        · rfl
        · exact absurd hb hcmp
      refine ⟨?_, ?_, ?_, ?_⟩
      · simp only [login, htr, Bool.false_eq_true, if_false, Option.getD_some, hf,
          hcmp2, Bool.not_false, if_true, errOut, isOkE]
        simp only [false_iff]
        rintro ⟨u, hu, heq, hc⟩
        have huu : u = u0 := unique_email_mem hnd hu hmem (heq.trans hemail.symm)
        rw [huu, hcmp2] at hc
        cases hc
      · intro _; simp [login, htr, hf, hcmp2, errOut]
      · intro u hu heq hc; simp [login, htr, hf, hcmp2, errOut]
      · simp [login, htr, hf, hcmp2, errOut]

/-- Witness for login_credential_semantics: on the sample store, the stored
password succeeds and a wrong password yields the 400 "Invalid credentials"
response. -/
theorem login_credential_semantics_witness :
    isOkE (login "s" sampleDB (some "alice@example.com") (some "pw") 0).result = true ∧
    (login "s" sampleDB (some "alice@example.com") (some "wrong") 0).result =
      Except.error { code := 400, message := "Invalid credentials" } :=
  have h1 := login_credential_semantics "s" sampleDB "alice@example.com" "pw" 0
    (by unfold emailsUnique; decide) (by decide) (by decide)
  have h2 := login_credential_semantics "s" sampleDB "alice@example.com" "wrong" 0
    (by unfold emailsUnique; decide) (by decide) (by decide)
  ⟨h1.1.mpr ⟨sampleUser, by decide, by decide, by decide⟩,
    h2.2.2.1 sampleUser (by decide) (by decide) (by decide)⟩

/-- C9 counterexample: creating a task whose body carries priority "urgent"
succeeds, and the stored task's priority is outside {low, medium, high}. -/
theorem create_unvalidated_priority :
    isOkE (createTask dbEmpty "alice" urgentBody 0 freshIds).result = true ∧
    (createTask dbEmpty "alice" urgentBody 0 freshIds).db.tasks.map TaskRow.priority = ["urgent"] ∧
    ¬ validPriority "urgent" := by
  refine ⟨by decide, by decide, ?_⟩
  intro h
  rcases h with h | h | h <;> exact absurd h (by decide)

/-- Task creation with vocabulary-conformant supplied fields keeps every
stored task's priority and status in the vocabulary. -/
theorem createTask_keeps_valid (db : DB) (uid : String) (body : CreateTaskBody)
    (now : Nat) (fresh : Nat → String) (hdb : tasksValid db)
    (hp : ∀ s, body.priority = some s → validPriority s)
    (hs : ∀ s, body.status = some s → validStatus s) :
    tasksValid (createTask db uid body now fresh).db := by
  unfold createTask
  split_ifs
  · exact hdb
  · exact hdb
  · intro t hmem
    simp only [List.mem_append, List.mem_singleton] at hmem
    rcases hmem with h1 | h1
    · exact hdb t h1
    · subst h1
      constructor
      · cases hb : body.priority with
        | none => simp [hb, validPriority]
        | some s => simp [hb]; exact hp s hb
      · cases hb : body.status with
        | none => simp [hb, validStatus]
        | some s => simp [hb]; exact hs s hb

/-- Task update with vocabulary-conformant supplied fields keeps every
stored task's priority and status in the vocabulary. -/
theorem updateTask_keeps_valid (db : DB) (uid tid : String) (body : UpdateTaskBody)
    (now : Nat) (hdb : tasksValid db)
    (hp : ∀ s, body.priority = some s → s ≠ "" → validPriority s)
    (hs : ∀ s, body.status = some s → s ≠ "" → validStatus s) :
    tasksValid (updateTask db uid tid body now).db := by
  cases hf : db.tasks.find? (fun r => r.task_id == tid) with
  | none => simp only [updateTask, hf, errOut]; exact hdb
  | some t =>
    by_cases hb : (t.creator_id != uid) = true
    · simp only [updateTask, hf, hb, if_true, errOut]; exact hdb
    · have hmem := List.mem_of_find?_eq_some hf
      intro x hx
      simp only [updateTask, hf, hb, Bool.false_eq_true, if_false, List.mem_map] at hx
      obtain ⟨u, hu, hxeq⟩ := hx
      by_cases hid : (u.task_id == tid) = true
      · simp only [hid, eq_self_iff_true, if_true] at hxeq
        subst hxeq
        constructor
        · cases hbp : body.priority with
          | none => simp [hbp]; exact (hdb t hmem).1
          | some s =>
            simp only [hbp]
            by_cases he : s = ""
            · simp [he]; exact (hdb t hmem).1
            · simp [he]; exact hp s hbp he
        · cases hbs : body.status with
          | none => simp [hbs]; exact (hdb t hmem).2
          | some s =>
            simp only [hbs]
            by_cases he : s = ""
            · simp [he]; exact (hdb t hmem).2
            · simp [he]; exact hs s hbs he
      · rw [if_neg hid] at hxeq
        subst hxeq; exact hdb u hu

/-- C9 (amended): starting from a store whose tasks have priority and status
in the vocabularies, running any sequence of task creations and updates all
of whose supplied priority values lie in {low, medium, high} and status
values in {pending, in_progress, completed} (ignoring empty strings on
updates, which the truthiness guard discards) leaves every stored task with
priority and status in those vocabularies. -/
theorem priority_status_invariant (db : DB) (ops : List TaskOp)
    (hdb : tasksValid db) (hops : ∀ op ∈ ops, opFieldsValid op) :
    tasksValid (runTaskOps db ops) := by
  induction ops generalizing db with
  | nil => exact hdb
  | cons op ops ih =>
    have hop := hops op (List.mem_cons_self op ops)
    have hnext : tasksValid (applyTaskOp db op) := by
      cases op with
      | create uid body now fresh =>
        exact createTask_keeps_valid db uid body now fresh hdb hop.1 hop.2
      | update uid tid body now =>
        exact updateTask_keeps_valid db uid tid body now hdb hop.1 hop.2
    exact ih (applyTaskOp db op) hnext (fun o ho => hops o (List.mem_cons_of_mem op ho))

/-- Witness for priority_status_invariant: one conformant creation on the
empty store leaves every stored task within the vocabularies. -/
theorem priority_status_invariant_witness :
    tasksValid (runTaskOps dbEmpty [TaskOp.create "alice" validBody 0 freshIds]) :=
  priority_status_invariant dbEmpty [TaskOp.create "alice" validBody 0 freshIds]
    (fun t ht => nomatch ht)
    (by
      intro op hop
      rw [List.mem_singleton.mp hop]
      constructor
      · intro s hsx
        rw [show s = "high" from (Option.some.inj hsx).symm]
        exact Or.inr (Or.inr rfl)
      · intro s hsx
        rw [show s = "completed" from (Option.some.inj hsx).symm]
        exact Or.inr (Or.inr rfl))

end TaskApp
